import Mathlib

/-!
Shallow embedding of the Jira batch scripts (`create_jira.py`,
`create_jira_prompt_project.py`, `update_jira.py`) and proofs about them.

Strings are Lean `String`s; the Python string methods used by the scripts
(`lower`, `upper`, `split`, `startswith`, substring `in`) are embedded as
character-list operations, which agree with Python on the ASCII data these
scripts handle.  HTTP traffic is modelled by oracles packaged in an
environment record; the filesystem by a `String → Bool` predicate on paths.
-/

/-- Embedding of Python `str.lower()` (ASCII). -/
def pyLower (s : String) : String := String.mk (s.data.map Char.toLower)

/-- Embedding of Python `str.upper()` (ASCII). -/
def pyUpper (s : String) : String := String.mk (s.data.map Char.toUpper)

/-- Embedding of Python `needle in hay` on strings, at the character-list level. -/
def containsSub (needle : List Char) : List Char → Bool
  | [] => needle.isEmpty
  | x :: xs => needle.isPrefixOf (x :: xs) || containsSub needle xs

/-- Embedding of Python `s.split(sep)` for a single-character separator `c`. -/
def splitOnChar (c : Char) : List Char → List (List Char)
  | [] => [[]]
  | x :: xs =>
    let rest := splitOnChar c xs
    if x = c then [] :: rest
    else
      match rest with
      | [] => [[x]]
      | r :: rs => (x :: r) :: rs

/-- Embedding of Python `s.startswith(p)`. -/
def pyStartswith (s p : String) : Bool := p.data.isPrefixOf s.data

/-- The fixed certificate directory `CERT_DIR` of `update_jira.py`. -/
def CERT_DIR : String := "/Users/michaelritchson/desktop/development/JIRA/certificates"

/-- The project-root directory constant of `update_jira.py` (`PROJECT_ROOT`);
its runtime value is the script's own directory, opaque to the scripts'
logic, so it is embedded as a fixed path. -/
def PROJECT_ROOT : String := "/opt/jira-scripts"

/-- Embedding of Python `os.path.join(dir, fname)` for the non-absolute
second arguments the scripts pass. -/
def pathJoin (d fname : String) : String := d ++ "/" ++ fname

/-- The candidate-filename list built at the top of `attach_certificate`
(`update_jira.py`, lines 39-47): `base = f"{category}_{severity}"` followed
by the six patterns. -/
def possible_filenames (category severity : String) : List String :=
  let base := category ++ "_" ++ severity
  [ base ++ ".pdf",
    pyLower base ++ ".pdf",
    pyLower category ++ "_" ++ pyLower severity ++ ".pdf",
    pyUpper category ++ "_" ++ pyUpper severity ++ ".pdf",
    category ++ "-" ++ severity ++ ".pdf",
    pyLower category ++ "-" ++ pyLower severity ++ ".pdf" ]

/-- A transition object as reported by the server: `{"id": ..., "name": ...}`. -/
structure TransitionJson where
  id : String
  name : String
deriving DecidableEq, Repr

/-- A field-catalog object as reported by the server; `name` is optional
because the code reads it with `f.get("name", "")`. -/
structure FieldDescr where
  id : String
  name : Option String
deriving DecidableEq, Repr

/-- Environment oracles standing in for the filesystem and the remote Jira
server in `update_jira.py`, restricted to well-shaped, already-parsed
responses: `disk p` is `os.path.exists(p)`; `upload_ok k p` tells whether
the attachment POST for file `p` on issue `k` answers 200 or 201;
`transitions k` is the parsed body of `GET /issue/k/transitions`; `fields`
the parsed body of `GET /field`; `accountId` the `accountId` of the parsed
`GET /myself` body.  This view cannot express a response that fails to
parse or lacks a key the code indexes with `[...]`; the raw-response
environment `JiraEnvRaw` further below models those, and is the authority
for which exceptions the update flow can raise. -/
structure JiraEnv where
  disk : String → Bool
  upload_ok : String → String → Bool
  transitions : String → List TransitionJson
  fields : List FieldDescr
  accountId : String

/-- Embedding of `upload_file` (`update_jira.py`, lines 61-96): returns
`False` when the path does not exist, otherwise the success of the POST. -/
def upload_file (env : JiraEnv) (issue_key file_path : String) : Bool :=
  if env.disk file_path then env.upload_ok issue_key file_path else false

/-- The probing loop of `attach_certificate` (lines 49-55): walk the
candidate list, upload the first existing file, return `False` when none
exists. -/
def attach_go (env : JiraEnv) (issue_key : String) : List String → Bool
  | [] => false
  | fname :: rest =>
    if env.disk (pathJoin CERT_DIR fname) then
      upload_file env issue_key (pathJoin CERT_DIR fname)
    else
      attach_go env issue_key rest

/-- Embedding of `attach_certificate` (`update_jira.py`, lines 34-55). -/
def attach_certificate (env : JiraEnv) (issue_key category severity : String) : Bool :=
  attach_go env issue_key (possible_filenames category severity)

/-- Atlassian-Document-Format text run `{"type": "text", "text": ...}`. -/
structure AdfText where
  type : String
  text : String
deriving DecidableEq, Repr

/-- ADF paragraph node. -/
structure AdfParagraph where
  type : String
  content : List AdfText
deriving DecidableEq, Repr

/-- ADF document `{"type": "doc", "version": 1, "content": [...]}`. -/
structure AdfDoc where
  type : String
  version : Nat
  content : List AdfParagraph
deriving DecidableEq, Repr

/-- The rich-text document the scripts build around a plain comment or
description string: a single paragraph holding one plain text run
(`update_jira.py` lines 125-134, 192-201; both creation scripts). -/
def adf_doc (text : String) : AdfDoc :=
  { type := "doc", version := 1,
    content := [{ type := "paragraph", content := [{ type := "text", text := text }] }] }

/-- The transition-search loop of `update_status` (`update_jira.py`,
lines 107-111): first transition whose name equals the desired status
case-insensitively, yielding its id. -/
def find_transition_id (transitions : List TransitionJson) (status : String) : Option String :=
  match transitions with
  | [] => none
  | t :: ts =>
    if pyLower t.name = pyLower status then some t.id
    else find_transition_id ts status

/-- Embedding of `update_status` (`update_jira.py`, lines 103-119): the
returned value is the transition id POSTed in the payload
`{"transition": {"id": id}}`, or `none` when the function logs the warning
and returns without POSTing.  The Python guard is `if not transition_id:`,
which also fires on an empty-string id. -/
def update_status (transitions : List TransitionJson) (status : String) : Option String :=
  match find_transition_id transitions status with
  | none => none
  | some tid => if tid = "" then none else some tid

/-- The field-search loop of `update_story_points` (`update_jira.py`,
lines 162-166): first field whose lowered name contains `"story point"`,
read with `f.get("name", "")`. -/
def find_sp_field (fields : List FieldDescr) : Option String :=
  match fields with
  | [] => none
  | f :: fs =>
    if containsSub ("story point").data (pyLower (f.name.getD "")).data then some f.id
    else find_sp_field fs

/-- Embedding of `update_story_points` (`update_jira.py`, lines 158-175):
the returned value is the single PUT payload `{"fields": {sp_field: points}}`
as a (field id, points) pair, or `none` when the function logs the skip
message and returns without PUTting.  The Python guard is
`if not sp_field:`, which also fires on an empty-string id. -/
def update_story_points (fields : List FieldDescr) (points : Int) : Option (String × Int) :=
  match find_sp_field fields with
  | none => none
  | some fid => if fid = "" then none else some (fid, points)

/-- The POST body of `add_worklog` (`update_jira.py`, lines 187-201):
`timeSpent` is whatever was passed (possibly absent, since `process_rtm`
passes `worklog.get("timeSpent")`), and the `comment` key is added only
under Python truthiness `if comment:`. -/
structure WorklogPayload where
  timeSpent : Option String
  comment : Option AdfDoc
deriving DecidableEq, Repr

/-- Embedding of the payload construction in `add_worklog`
(`update_jira.py`, lines 180-203). -/
def add_worklog_payload (time_spent : Option String) (comment : Option String) : WorklogPayload :=
  { timeSpent := time_spent,
    comment :=
      match comment with
      | some c => if c = "" then none else some (adf_doc c)
      | none => none }

/-- A `worklog` object inside an update entry; `process_rtm` reads both
keys with `.get`, so each may be absent. -/
structure Worklog where
  timeSpent : Option String
  comment : Option String
deriving DecidableEq, Repr

/-- An update entry of the `--rtm` JSON file consumed by `process_rtm`
(`update_jira.py`, lines 216-270).  Every key except `issue` is read with
`in`/`.get`, hence optional; `issue` is read with `entry["issue"]`. -/
structure UpdateEntry where
  issue : Option String := none
  status : Option String := none
  comment : Option String := none
  labels : Option (List String) := none
  points : Option Int := none
  worklog : Option Worklog := none
  category : Option String := none
  severity : Option String := none
  attachments : Option (List String) := none
deriving DecidableEq, Repr

/-- A Python exception escaping the scripts: a `KeyError` from a `[...]`
lookup, or a `json.JSONDecodeError` from a `.json()` call on an
unparseable response body. -/
inductive PyErr where
  | keyError (key : String)
  | jsonDecodeError
deriving DecidableEq, Repr

/-- One observable server-side effect of `process_rtm` on an issue, in the
order the code performs them. -/
inductive JAction where
  | transition (issue tid : String)
  | comment (issue : String) (body : AdfDoc)
  | assign (issue account : String)
  | addLabels (issue : String) (labels : List String)
  | setPoints (issue fid : String) (points : Int)
  | worklog (issue : String) (payload : WorklogPayload)
  | certAttach (issue category severity : String) (ok : Bool)
  | attach (issue path : String) (ok : Bool)
deriving DecidableEq, Repr

/-- Embedding of Python `os.path.isabs` (POSIX). -/
def pyIsAbs (p : String) : Bool :=
  match p.data with
  | [] => false
  | c :: _ => c = '/'

/-- The body of `process_rtm`'s loop for one entry (`update_jira.py`,
lines 220-270), over the well-shaped view `JiraEnv`: `entry["issue"]`
raises `KeyError` when absent; otherwise the optional steps run in the
code's order, each producing its effect or silently skipping.  Over this
view the entry cannot raise anywhere else; the raw-response variant
`process_one_raw` below also models the uncaught exceptions the code
raises on malformed server responses (`me["accountId"]`, `t["name"]`,
`t["id"]`, `f["id"]`, `.json()` parse failures) and is the authority for
exception behaviour. -/
def process_one (env : JiraEnv) (entry : UpdateEntry) : Except PyErr (List JAction) :=
  match entry.issue with
  | none => .error (.keyError "issue")
  | some issue =>
    let a1 : List JAction :=
      match entry.status with
      | some st =>
        match update_status (env.transitions issue) st with
        | some tid => [.transition issue tid]
        | none => []
      | none => []
    let a2 : List JAction :=
      match entry.comment with
      | some c => [.comment issue (adf_doc c)]
      | none => []
    let a3 : List JAction := [.assign issue env.accountId]
    let a4 : List JAction :=
      match entry.labels with
      | some ls => [.addLabels issue ls]
      | none => []
    let a5 : List JAction :=
      match entry.points with
      | some p =>
        match update_story_points env.fields p with
        | some (fid, pts) => [.setPoints issue fid pts]
        | none => []
      | none => []
    let a6 : List JAction :=
      match entry.worklog with
      | some w => [.worklog issue (add_worklog_payload w.timeSpent w.comment)]
      | none => []
    let a7 : List JAction :=
      match entry.category, entry.severity with
      | some cat, some sev =>
        if cat ≠ "" ∧ sev ≠ "" then [.certAttach issue cat sev (attach_certificate env issue cat sev)]
        else []
      | _, _ => []
    let a8 : List JAction :=
      (entry.attachments.getD []).map fun rel_path =>
        let abs_path := if pyIsAbs rel_path then rel_path else pathJoin PROJECT_ROOT rel_path
        .attach issue abs_path (upload_file env issue abs_path)
    .ok (a1 ++ a2 ++ a3 ++ a4 ++ a5 ++ a6 ++ a7 ++ a8)

/-- A transition object as raw JSON: the code indexes `t["name"]` and
`t["id"]`, which raise `KeyError` when the key is absent. -/
structure TransitionRaw where
  id : Option String
  name : Option String
deriving DecidableEq, Repr

/-- A field-catalog object as raw JSON: the code reads the name safely
with `f.get("name", "")` but indexes `f["id"]`. -/
structure FieldRaw where
  id : Option String
  name : Option String
deriving DecidableEq, Repr

/-- The raw `GET /myself` body: `assign_to_me` indexes `me["accountId"]`,
which raises `KeyError` when absent — as on any bad-token run, whose error
body carries no `accountId`. -/
structure MyselfRaw where
  accountId : Option String
deriving DecidableEq, Repr

/-- Raw-response environment for `update_jira.py`: each GET body is an
`Except` because `.json()` raises on an unparseable body, and the parsed
objects may lack the keys the code indexes.  `disk` and `upload_ok` are as
in `JiraEnv`. -/
structure JiraEnvRaw where
  disk : String → Bool
  upload_ok : String → String → Bool
  transitionsResp : String → Except PyErr (List TransitionRaw)
  fieldsResp : Except PyErr (List FieldRaw)
  myselfResp : Except PyErr MyselfRaw

/-- Restriction of a raw environment to the filesystem and upload oracles;
the attachment helpers read nothing else from a `JiraEnv`. -/
def toFsEnv (env : JiraEnvRaw) : JiraEnv :=
  { disk := env.disk, upload_ok := env.upload_ok,
    transitions := fun _ => [], fields := [], accountId := "" }

/-- The transition-search loop of `update_status` over raw objects
(`update_jira.py`, lines 108-111): `t["name"]` raises on a nameless
object, and on a match `t["id"]` raises on an id-less one. -/
def find_transition_id_raw (transitions : List TransitionRaw) (status : String) :
    Except PyErr (Option String) :=
  match transitions with
  | [] => .ok none
  | t :: ts =>
    match t.name with
    | none => .error (.keyError "name")
    | some nm =>
      if pyLower nm = pyLower status then
        match t.id with
        | none => .error (.keyError "id")
        | some tid => .ok (some tid)
      else find_transition_id_raw ts status

/-- Embedding of `update_status` over raw responses (`update_jira.py`,
lines 103-119): a `.json()` failure or a missing key propagates; otherwise
the posted transition id, or `none` after the warning (also for an
empty-string id, via `if not transition_id:`). -/
def update_status_raw (resp : Except PyErr (List TransitionRaw)) (status : String) :
    Except PyErr (Option String) :=
  match resp with
  | .error e => .error e
  | .ok transitions =>
    match find_transition_id_raw transitions status with
    | .error e => .error e
    | .ok none => .ok none
    | .ok (some tid) => .ok (if tid = "" then none else some tid)

/-- Embedding of `assign_to_me` over the raw `/myself` body
(`update_jira.py`, lines 147-155): a parse failure or a body without
`accountId` raises; otherwise the account the PUT assigns. -/
def assign_to_me_raw (resp : Except PyErr MyselfRaw) : Except PyErr String :=
  match resp with
  | .error e => .error e
  | .ok me =>
    match me.accountId with
    | none => .error (.keyError "accountId")
    | some acct => .ok acct

/-- The field-search loop of `update_story_points` over raw objects
(`update_jira.py`, lines 163-166): `f.get("name", "")` never raises, but
on a match `f["id"]` raises when the id key is absent. -/
def find_sp_field_raw (fields : List FieldRaw) : Except PyErr (Option String) :=
  match fields with
  | [] => .ok none
  | f :: fs =>
    if containsSub ("story point").data (pyLower (f.name.getD "")).data then
      match f.id with
      | none => .error (.keyError "id")
      | some fid => .ok (some fid)
    else find_sp_field_raw fs

/-- Embedding of `update_story_points` over raw responses
(`update_jira.py`, lines 158-175): a `.json()` failure or a missing id on
the matched field propagates; otherwise the single PUT payload, or `none`
after the skip message (also for an empty id, via `if not sp_field:`). -/
def update_story_points_raw (resp : Except PyErr (List FieldRaw)) (points : Int) :
    Except PyErr (Option (String × Int)) :=
  match resp with
  | .error e => .error e
  | .ok fields =>
    match find_sp_field_raw fields with
    | .error e => .error e
    | .ok none => .ok none
    | .ok (some fid) => .ok (if fid = "" then none else some (fid, points))

/-- The status step of an entry over raw responses: skipped when the entry
has no `status` key, otherwise `update_status`'s effect or its exception. -/
def status_step_raw (env : JiraEnvRaw) (issue : String) (st : Option String) :
    Except PyErr (List JAction) :=
  match st with
  | none => .ok []
  | some s =>
    match update_status_raw (env.transitionsResp issue) s with
    | .error e => .error e
    | .ok none => .ok []
    | .ok (some tid) => .ok [.transition issue tid]

/-- The story-points step of an entry over raw responses: skipped when the
entry has no `points` key, otherwise the PUT or its exception. -/
def points_step_raw (env : JiraEnvRaw) (issue : String) (pt : Option Int) :
    Except PyErr (List JAction) :=
  match pt with
  | none => .ok []
  | some p =>
    match update_story_points_raw env.fieldsResp p with
    | .error e => .error e
    | .ok none => .ok []
    | .ok (some (fid, pts)) => .ok [.setPoints issue fid pts]

/-- The body of `process_rtm`'s loop for one entry over raw responses
(`update_jira.py`, lines 220-270), in the code's order: `entry["issue"]`
raises when absent; the status step, the assignee step and the points step
can each raise on a malformed response, aborting the entry (and the run)
at that point; the comment, labels, worklog, certificate and explicit
attachment steps cannot raise. -/
def process_one_raw (env : JiraEnvRaw) (entry : UpdateEntry) : Except PyErr (List JAction) :=
  match entry.issue with
  | none => .error (.keyError "issue")
  | some issue =>
    match status_step_raw env issue entry.status with
    | .error e => .error e
    | .ok a1 =>
      let a2 : List JAction :=
        match entry.comment with
        | some c => [.comment issue (adf_doc c)]
        | none => []
      match assign_to_me_raw env.myselfResp with
      | .error e => .error e
      | .ok acct =>
        let a3 : List JAction := [.assign issue acct]
        let a4 : List JAction :=
          match entry.labels with
          | some ls => [.addLabels issue ls]
          | none => []
        match points_step_raw env issue entry.points with
        | .error e => .error e
        | .ok a5 =>
          let a6 : List JAction :=
            match entry.worklog with
            | some w => [.worklog issue (add_worklog_payload w.timeSpent w.comment)]
            | none => []
          let a7 : List JAction :=
            match entry.category, entry.severity with
            | some cat, some sev =>
              if cat ≠ "" ∧ sev ≠ "" then
                [.certAttach issue cat sev (attach_certificate (toFsEnv env) issue cat sev)]
              else []
            | _, _ => []
          let a8 : List JAction :=
            (entry.attachments.getD []).map fun rel_path =>
              let abs_path := if pyIsAbs rel_path then rel_path else pathJoin PROJECT_ROOT rel_path
              .attach issue abs_path (upload_file (toFsEnv env) issue abs_path)
          .ok (a1 ++ a2 ++ a3 ++ a4 ++ a5 ++ a6 ++ a7 ++ a8)

/-- Embedding of `process_rtm` (`update_jira.py`, lines 216-270) over raw
responses: entries are processed in order; an uncaught exception in one
entry aborts the rest of the batch (there is no `try` anywhere in the
file). -/
def process_rtm_raw (env : JiraEnvRaw) : List UpdateEntry → Except PyErr (List (List JAction))
  | [] => .ok []
  | e :: rest =>
    match process_one_raw env e with
    | .error err => .error err
    | .ok t =>
      match process_rtm_raw env rest with
      | .error err => .error err
      | .ok ts => .ok (t :: ts)

/-- Well-shapedness of the raw responses an update run consumes: the
`/myself` body parses and carries an `accountId`, every transitions
response parses with each object carrying `name` and `id`, and the field
catalog parses with each object carrying `id`. -/
def rawRespOk (env : JiraEnvRaw) : Prop :=
  (∃ acct, env.myselfResp = Except.ok ⟨some acct⟩)
  ∧ (∀ issue, ∃ ts, env.transitionsResp issue = Except.ok ts
      ∧ ∀ t ∈ ts, t.name.isSome = true ∧ t.id.isSome = true)
  ∧ (∃ fs, env.fieldsResp = Except.ok fs ∧ ∀ f ∈ fs, f.id.isSome = true)

/-- The fixed issue-type id both creation scripts use (`ISSUE_TYPE_ID`). -/
def ISSUE_TYPE_ID : String := "10003"

/-- An entry of the creation JSON file; the four required keys are read
with `entry[...]` inside a `try`, `labels` with `entry.get("labels", [])`. -/
structure CreationEntry where
  rtm : Option String := none
  epic : Option String := none
  summary : Option String := none
  description : Option String := none
  labels : Option (List String) := none
deriving DecidableEq, Repr

/-- The `POST /rest/api/3/issue` payload's `fields` object, as built by
`create_issue` in both creation scripts. -/
structure CreateRequest where
  project : String
  summary : String
  description : AdfDoc
  issuetype : String
  parent : String
  labels : List String
deriving DecidableEq, Repr

/-- Builds the creation payload of `create_issue` (`create_jira.py`
lines 35-58; `create_jira_prompt_project.py` lines 55-80). -/
def mk_create_request (project_key epic_key summary description : String)
    (labels : List String) : CreateRequest :=
  { project := project_key, summary := summary, description := adf_doc description,
    issuetype := ISSUE_TYPE_ID, parent := epic_key, labels := labels }

/-- A record appended to `update_entries` and written to the derived
`*_update.json` file by either creation script. -/
structure DerivedEntry where
  issue : String
  status : String
  comment : String
  labels : List String
  points : Int
deriving DecidableEq, Repr

/-- The per-entry body of `process_json` in `create_jira.py`
(lines 81-104): `none` when a required key is missing (the `except
KeyError` branch skips the entry before any request); otherwise the
creation request together with the derived update entry, which exists only
when `create` answers a truthy issue key (`if issue_key:`). -/
def create_step (create : CreateRequest → Option String) (entry : CreationEntry) :
    Option (CreateRequest × Option DerivedEntry) :=
  match entry.rtm, entry.epic, entry.summary, entry.description with
  | some rtm, some epic_key, some summary, some description =>
    let labels := entry.labels.getD []
    let req := mk_create_request "CPG" epic_key summary description labels
    some (req,
      match create req with
      | some key =>
        if key = "" then none
        else some { issue := key, status := "To Do",
                    comment := "RTM " ++ rtm ++ " certificate created.",
                    labels := labels, points := 0 }
      | none => none)
  | _, _, _, _ => none

/-- Embedding of `infer_project_from_epic`
(`create_jira_prompt_project.py`, lines 33-34): `epic_key.split("-")[0]`. -/
def infer_project_from_epic (epic_key : String) : String :=
  match splitOnChar '-' epic_key.data with
  | [] => ""
  | first :: _ => String.mk first

/-- The project key used for an entry in
`create_jira_prompt_project.process_json` (lines 123-127):
`default_project if default_project else infer_project_from_epic(epic_key)`
(Python truthiness, so an empty string also falls back to inference). -/
def effective_project (default_project : Option String) (epic_key : String) : String :=
  match default_project with
  | some p => if p = "" then infer_project_from_epic epic_key else p
  | none => infer_project_from_epic epic_key

/-- The per-entry body of `process_json` in
`create_jira_prompt_project.py` (lines 111-154): missing required key →
skip; guardrail `if not epic_key.startswith(project_key + "-")` → skip
before any request; otherwise the request plus the derived entry on a
truthy created key. -/
def pp_step (default_project : Option String) (create : CreateRequest → Option String)
    (entry : CreationEntry) : Option (CreateRequest × Option DerivedEntry) :=
  match entry.rtm, entry.epic, entry.summary, entry.description with
  | some rtm, some epic_key, some summary, some description =>
    let labels := entry.labels.getD []
    let project_key := effective_project default_project epic_key
    if pyStartswith epic_key (project_key ++ "-") then
      let req := mk_create_request project_key epic_key summary description labels
      some (req,
        match create req with
        | some key =>
          if key = "" then none
          else some { issue := key, status := "To Do",
                      comment := rtm ++ " created (auto-generated).",
                      labels := labels, points := 0 }
        | none => none)
    else none
  | _, _, _, _ => none

/-- The accumulation loop shared by both `process_json` drivers: walk the
entries, collecting every creation request sent and every derived update
entry appended, in order. -/
def run_batch (step : CreationEntry → Option (CreateRequest × Option DerivedEntry)) :
    List CreationEntry → List CreateRequest × List DerivedEntry
  | [] => ([], [])
  | entry :: rest =>
    let acc := run_batch step rest
    match step entry with
    | none => acc
    | some (req, none) => (req :: acc.1, acc.2)
    | some (req, some u) => (req :: acc.1, u :: acc.2)

/-- Embedding of `process_json` (`create_jira.py`, lines 73-113): the
requests sent and the contents of the derived `*_update.json` file. -/
def process_json (create : CreateRequest → Option String)
    (items : List CreationEntry) : List CreateRequest × List DerivedEntry :=
  run_batch (create_step create) items

/-- Embedding of `process_json` (`create_jira_prompt_project.py`,
lines 101-162), parametrised by the prompted project key (`none` for a
blank prompt). -/
def pp_process_json (default_project : Option String)
    (create : CreateRequest → Option String)
    (items : List CreationEntry) : List CreateRequest × List DerivedEntry :=
  run_batch (pp_step default_project create) items

/-- A concrete environment in which no path exists on disk. -/
def noDiskEnv : JiraEnv :=
  { disk := fun _ => false, upload_ok := fun _ _ => true,
    transitions := fun _ => [], fields := [], accountId := "acct" }

theorem pyLower_append (a b : String) : pyLower (a ++ b) = pyLower a ++ pyLower b := by
  show String.mk ((a ++ b).data.map Char.toLower)
      = String.mk (a.data.map Char.toLower) ++ String.mk (b.data.map Char.toLower)
  rw [String.data_append, List.map_append]
  rfl

theorem attach_go_all_missing (env : JiraEnv) (issue_key : String) (fnames : List String)
    (h : ∀ f ∈ fnames, env.disk (pathJoin CERT_DIR f) = false) :
    attach_go env issue_key fnames = false := by
  induction fnames with
  | nil => rfl
  | cons f rest ih =>
    have hf := h f (List.mem_cons_self f rest)
    simp only [attach_go, hf, Bool.false_eq_true, if_false]
    exact ih fun g hg => h g (List.mem_cons_of_mem f hg)

theorem attach_go_first (env : JiraEnv) (issue_key : String) (l1 : List String)
    (f : String) (l2 : List String)
    (h1 : ∀ g ∈ l1, env.disk (pathJoin CERT_DIR g) = false)
    (hf : env.disk (pathJoin CERT_DIR f) = true) :
    attach_go env issue_key (l1 ++ f :: l2) =
      upload_file env issue_key (pathJoin CERT_DIR f) := by
  induction l1 with
  | nil => simp only [List.nil_append, attach_go, hf, if_true]
  | cons g rest ih =>
    have hg := h1 g (List.mem_cons_self g rest)
    simp only [List.cons_append, attach_go, hg, Bool.false_eq_true, if_false]
    exact ih fun x hx => h1 x (List.mem_cons_of_mem g hx)

/-- C1: for every category and severity, `attach_certificate` generates
exactly the six candidate filenames of the spec in its fixed order (for
`"Maneuver"`/`"LOW"` the six concrete names, including the duplicate
`maneuver_low.pdf`), probes them in order against the fixed certificate
directory, uploads the first one that exists, and returns failure (it
cannot raise: it is a total function) when none exists. -/
theorem attach_certificate_spec (category severity : String) :
    possible_filenames category severity =
      [ category ++ "_" ++ severity ++ ".pdf",
        pyLower (category ++ "_" ++ severity ++ ".pdf"),
        pyLower category ++ "_" ++ pyLower severity ++ ".pdf",
        pyUpper category ++ "_" ++ pyUpper severity ++ ".pdf",
        category ++ "-" ++ severity ++ ".pdf",
        pyLower category ++ "-" ++ pyLower severity ++ ".pdf" ]
    ∧ possible_filenames "Maneuver" "LOW" =
      [ "Maneuver_LOW.pdf", "maneuver_low.pdf", "maneuver_low.pdf",
        "MANEUVER_LOW.pdf", "Maneuver-LOW.pdf", "maneuver-low.pdf" ]
    ∧ (∀ env issue_key,
        (∀ f ∈ possible_filenames category severity,
          env.disk (pathJoin CERT_DIR f) = false) →
        attach_certificate env issue_key category severity = false)
    ∧ (∀ env issue_key l1 f l2,
        possible_filenames category severity = l1 ++ f :: l2 →
        (∀ g ∈ l1, env.disk (pathJoin CERT_DIR g) = false) →
        env.disk (pathJoin CERT_DIR f) = true →
        attach_certificate env issue_key category severity =
          upload_file env issue_key (pathJoin CERT_DIR f)) := by
  refine ⟨?_, by decide, ?_, ?_⟩
  · have h : pyLower (category ++ "_" ++ severity ++ ".pdf")
        = pyLower (category ++ "_" ++ severity) ++ ".pdf" := by
      rw [pyLower_append]
      rfl
    simp only [possible_filenames, h]
  · intro env issue_key h
    exact attach_go_all_missing env issue_key _ h
  · intro env issue_key l1 f l2 hsplit h1 hf
    unfold attach_certificate
    rw [hsplit]
    exact attach_go_first env issue_key l1 f l2 h1 hf

/-- Witness for C1: with nothing on disk, attaching the
`"Maneuver"`/`"LOW"` certificate to `CPG-1` fails. -/
theorem attach_certificate_spec_witness :
    attach_certificate noDiskEnv "CPG-1" "Maneuver" "LOW" = false :=
  (attach_certificate_spec "Maneuver" "LOW").2.2.1 noDiskEnv "CPG-1" (by decide)

theorem find_transition_id_all_ne (transitions : List TransitionJson) (status : String)
    (h : ∀ t ∈ transitions, pyLower t.name ≠ pyLower status) :
    find_transition_id transitions status = none := by
  induction transitions with
  | nil => rfl
  | cons t ts ih =>
    have ht := h t (List.mem_cons_self t ts)
    simp only [find_transition_id, ht, if_false]
    exact ih fun u hu => h u (List.mem_cons_of_mem t hu)

theorem find_transition_id_first (l1 : List TransitionJson) (t : TransitionJson)
    (l2 : List TransitionJson) (status : String)
    (h1 : ∀ u ∈ l1, pyLower u.name ≠ pyLower status)
    (ht : pyLower t.name = pyLower status) :
    find_transition_id (l1 ++ t :: l2) status = some t.id := by
  induction l1 with
  | nil => simp only [List.nil_append, find_transition_id, ht, if_true]
  | cons u us ih =>
    have hu := h1 u (List.mem_cons_self u us)
    simp only [List.cons_append, find_transition_id, hu, if_false]
    exact ih fun v hv => h1 v (List.mem_cons_of_mem u hv)

/-- C2 counterexample: for the server-reported transition list
`[{id: "", name: "Done"}]` and desired status `"done"`, a transition name
matches case-insensitively and the scan selects its id `""`, yet
`update_status` posts nothing (the Python guard `if not transition_id:`
also fires on an empty-string id), contradicting the claim that only a
failed name match leads to returning without posting. -/
theorem update_status_empty_id_cex :
    pyLower "Done" = pyLower "done"
    ∧ find_transition_id [⟨"", "Done"⟩] "done" = some ""
    ∧ update_status [⟨"", "Done"⟩] "done" = none := by
  refine ⟨by decide, by decide, by decide⟩

/-- C2 amended: the desired status is matched against the server-reported
transition names case-insensitively and exactly (whole-name equality, so
`"done"` matches `"Done"` but not `"Done!"`); the first matching
transition's id is selected and posted provided it is non-empty; when no
transition name matches — or the selected id is the empty string, which
the guard `if not transition_id:` treats as no match — a warning is logged
and no transition is posted, and the rest of the entry's updates still
proceed (the assignee step, in particular, always runs). -/
theorem update_status_spec (transitions : List TransitionJson) (status : String) :
    ((∀ t ∈ transitions, pyLower t.name ≠ pyLower status) →
      update_status transitions status = none)
    ∧ (∀ l1 t l2, transitions = l1 ++ t :: l2 →
        (∀ u ∈ l1, pyLower u.name ≠ pyLower status) →
        pyLower t.name = pyLower status → t.id ≠ "" →
        update_status transitions status = some t.id)
    ∧ (∀ l1 t l2, transitions = l1 ++ t :: l2 →
        (∀ u ∈ l1, pyLower u.name ≠ pyLower status) →
        pyLower t.name = pyLower status → t.id = "" →
        update_status transitions status = none)
    ∧ (∀ env (e : UpdateEntry) issue, e.issue = some issue →
        ∃ acts, process_one env e = Except.ok acts
          ∧ JAction.assign issue env.accountId ∈ acts)
    ∧ update_status [⟨"5", "Done!"⟩, ⟨"7", "Done"⟩] "done" = some "7"
    ∧ update_status [⟨"5", "Done!"⟩] "done" = none := by
  refine ⟨?_, ?_, ?_, ?_, by decide, by decide⟩
  · intro h
    unfold update_status
    rw [find_transition_id_all_ne transitions status h]
  · intro l1 t l2 hsplit h1 ht hid
    unfold update_status
    rw [hsplit, find_transition_id_first l1 t l2 status h1 ht]
    simp only [hid, if_false, if_neg hid]
  · intro l1 t l2 hsplit h1 ht hid
    unfold update_status
    rw [hsplit, find_transition_id_first l1 t l2 status h1 ht]
    simp only [hid, if_true]
  · intro env e issue h
    obtain ⟨i, st, cm, lb, pt, wl, cat, sev, att⟩ := e
    cases h
    refine ⟨_, rfl, ?_⟩
    simp [List.mem_append]

/-- Witness for C2: `"done"` selects the transition named `"Done"` (id
`"7"`) past the non-matching `"Done!"`. -/
theorem update_status_spec_witness :
    update_status [⟨"5", "Done!"⟩, ⟨"7", "Done"⟩] "done" = some "7" :=
  (update_status_spec [⟨"5", "Done!"⟩, ⟨"7", "Done"⟩] "done").2.1
    [⟨"5", "Done!"⟩] ⟨"7", "Done"⟩ [] rfl (by decide) (by decide) (by decide)

theorem run_batch_skip (step : CreationEntry → Option (CreateRequest × Option DerivedEntry))
    (pre post : List CreationEntry) (e : CreationEntry) (h : step e = none) :
    run_batch step (pre ++ e :: post) = run_batch step (pre ++ post) := by
  induction pre with
  | nil => simp only [List.nil_append, run_batch, h]
  | cons p ps ih =>
    show run_batch step (p :: (ps ++ e :: post)) = run_batch step (p :: (ps ++ post))
    simp only [run_batch]
    rw [ih]

theorem create_step_missing (create : CreateRequest → Option String) (entry : CreationEntry)
    (h : entry.rtm = none ∨ entry.epic = none ∨ entry.summary = none
         ∨ entry.description = none) :
    create_step create entry = none := by
  obtain ⟨r, e, s, d, l⟩ := entry
  rcases r with _ | r
  · rfl
  rcases e with _ | e
  · rfl
  rcases s with _ | s
  · rfl
  rcases d with _ | d
  · rfl
  simp at h

theorem pp_step_missing (default_project : Option String)
    (create : CreateRequest → Option String) (entry : CreationEntry)
    (h : entry.rtm = none ∨ entry.epic = none ∨ entry.summary = none
         ∨ entry.description = none) :
    pp_step default_project create entry = none := by
  obtain ⟨r, e, s, d, l⟩ := entry
  rcases r with _ | r
  · rfl
  rcases e with _ | e
  · rfl
  rcases s with _ | s
  · rfl
  rcases d with _ | d
  · rfl
  simp at h

/-- C3: in both creation scripts, an entry missing one of the required
keys `rtm`, `epic`, `summary`, `description` is skipped — no creation
request is sent for it and it contributes no record to the derived update
file — while the surrounding entries are processed exactly as they would
be without it. -/
theorem creation_skips_missing_required
    (create : CreateRequest → Option String) (default_project : Option String)
    (pre post : List CreationEntry) (entry : CreationEntry)
    (h : entry.rtm = none ∨ entry.epic = none ∨ entry.summary = none
         ∨ entry.description = none) :
    process_json create (pre ++ entry :: post) = process_json create (pre ++ post)
    ∧ pp_process_json default_project create (pre ++ entry :: post) =
        pp_process_json default_project create (pre ++ post) := by
  constructor
  · exact run_batch_skip _ pre post entry (create_step_missing create entry h)
  · exact run_batch_skip _ pre post entry (pp_step_missing default_project create entry h)

/-- An always-succeeding creation oracle, used in concrete instances. -/
def okCreate : CreateRequest → Option String := fun _ => some "CPG-100"

/-- A creation entry lacking the required `rtm` key. -/
def missingRtmEntry : CreationEntry :=
  { epic := some "CPG-7", summary := some "s", description := some "d" }

/-- Witness for C3: an entry lacking `rtm` contributes nothing in either
script, even though its creation request would have succeeded. -/
theorem creation_skips_missing_required_witness :
    process_json okCreate [missingRtmEntry] = process_json okCreate []
    ∧ pp_process_json none okCreate [missingRtmEntry] = pp_process_json none okCreate [] :=
  creation_skips_missing_required okCreate none [] [] missingRtmEntry (Or.inl rfl)

theorem run_batch_append (step : CreationEntry → Option (CreateRequest × Option DerivedEntry))
    (l1 l2 : List CreationEntry) :
    run_batch step (l1 ++ l2) =
      ((run_batch step l1).1 ++ (run_batch step l2).1,
       (run_batch step l1).2 ++ (run_batch step l2).2) := by
  induction l1 with
  | nil => simp [run_batch]
  | cons p ps ih =>
    show run_batch step (p :: (ps ++ l2)) =
      ((run_batch step (p :: ps)).1 ++ (run_batch step l2).1,
       (run_batch step (p :: ps)).2 ++ (run_batch step l2).2)
    simp only [run_batch]
    cases hstep : step p with
    | none => simpa using ih
    | some rq =>
      rcases rq with ⟨req, u⟩
      cases u <;> simp [ih]

theorem run_batch_mid_success (step : CreationEntry → Option (CreateRequest × Option DerivedEntry))
    (pre post : List CreationEntry) (entry : CreationEntry)
    (req : CreateRequest) (u : DerivedEntry) (h : step entry = some (req, some u)) :
    (run_batch step (pre ++ entry :: post)).2 =
      (run_batch step pre).2 ++ u :: (run_batch step post).2 := by
  have h2 := congrArg Prod.snd (run_batch_append step pre (entry :: post))
  rw [h2]
  simp only [run_batch, h]

theorem run_batch_mid_fail (step : CreationEntry → Option (CreateRequest × Option DerivedEntry))
    (pre post : List CreationEntry) (entry : CreationEntry)
    (req : CreateRequest) (h : step entry = some (req, none)) :
    (run_batch step (pre ++ entry :: post)).2 =
      (run_batch step pre).2 ++ (run_batch step post).2 := by
  have h2 := congrArg Prod.snd (run_batch_append step pre (entry :: post))
  rw [h2]
  simp only [run_batch, h]

theorem create_step_success (create : CreateRequest → Option String)
    (rtm epic_key summary description : String) (labels : List String) (key : String)
    (hc : create (mk_create_request "CPG" epic_key summary description labels) = some key)
    (hk : key ≠ "") :
    create_step create ⟨some rtm, some epic_key, some summary, some description, some labels⟩ =
      some (mk_create_request "CPG" epic_key summary description labels,
            some { issue := key, status := "To Do",
                   comment := "RTM " ++ rtm ++ " certificate created.",
                   labels := labels, points := 0 }) := by
  simp [create_step, hc, hk]

theorem create_step_fail (create : CreateRequest → Option String)
    (rtm epic_key summary description : String) (labels : List String)
    (hc : create (mk_create_request "CPG" epic_key summary description labels) = none) :
    create_step create ⟨some rtm, some epic_key, some summary, some description, some labels⟩ =
      some (mk_create_request "CPG" epic_key summary description labels, none) := by
  simp [create_step, hc]

theorem pp_step_success (default_project : Option String) (create : CreateRequest → Option String)
    (rtm epic_key summary description : String) (labels : List String) (key : String)
    (hg : pyStartswith epic_key (effective_project default_project epic_key ++ "-") = true)
    (hc : create (mk_create_request (effective_project default_project epic_key)
            epic_key summary description labels) = some key)
    (hk : key ≠ "") :
    pp_step default_project create
      ⟨some rtm, some epic_key, some summary, some description, some labels⟩ =
      some (mk_create_request (effective_project default_project epic_key)
              epic_key summary description labels,
            some { issue := key, status := "To Do",
                   comment := rtm ++ " created (auto-generated).",
                   labels := labels, points := 0 }) := by
  simp [pp_step, hg, hc, hk]

theorem pp_step_fail (default_project : Option String) (create : CreateRequest → Option String)
    (rtm epic_key summary description : String) (labels : List String)
    (hg : pyStartswith epic_key (effective_project default_project epic_key ++ "-") = true)
    (hc : create (mk_create_request (effective_project default_project epic_key)
            epic_key summary description labels) = none) :
    pp_step default_project create
      ⟨some rtm, some epic_key, some summary, some description, some labels⟩ =
      some (mk_create_request (effective_project default_project epic_key)
              epic_key summary description labels, none) := by
  simp [pp_step, hg, hc]

/-- C4: in both creation scripts, an entry whose creation request succeeds
with a (non-empty) issue key appends exactly one derived update entry with
that key, status exactly `"To Do"`, points exactly `0`, the same labels,
and a comment referencing the entry's rtm identifier; an entry whose
creation request fails contributes no record at all to the derived batch. -/
theorem creation_success_one_derived
    (create : CreateRequest → Option String) (default_project : Option String)
    (pre post : List CreationEntry)
    (rtm epic_key summary description : String) (labels : List String) (key : String) :
    (create (mk_create_request "CPG" epic_key summary description labels) = some key →
      key ≠ "" →
      (process_json create
          (pre ++ ⟨some rtm, some epic_key, some summary, some description, some labels⟩
            :: post)).2 =
        (process_json create pre).2
          ++ ({ issue := key, status := "To Do",
                comment := "RTM " ++ rtm ++ " certificate created.",
                labels := labels, points := 0 } : DerivedEntry)
            :: (process_json create post).2)
    ∧ (create (mk_create_request "CPG" epic_key summary description labels) = none →
      (process_json create
          (pre ++ ⟨some rtm, some epic_key, some summary, some description, some labels⟩
            :: post)).2 =
        (process_json create pre).2 ++ (process_json create post).2)
    ∧ (∃ a b, "RTM " ++ rtm ++ " certificate created." = a ++ rtm ++ b)
    ∧ (pyStartswith epic_key (effective_project default_project epic_key ++ "-") = true →
      create (mk_create_request (effective_project default_project epic_key)
        epic_key summary description labels) = some key →
      key ≠ "" →
      (pp_process_json default_project create
          (pre ++ ⟨some rtm, some epic_key, some summary, some description, some labels⟩
            :: post)).2 =
        (pp_process_json default_project create pre).2
          ++ ({ issue := key, status := "To Do",
                comment := rtm ++ " created (auto-generated).",
                labels := labels, points := 0 } : DerivedEntry)
            :: (pp_process_json default_project create post).2)
    ∧ (pyStartswith epic_key (effective_project default_project epic_key ++ "-") = true →
      create (mk_create_request (effective_project default_project epic_key)
        epic_key summary description labels) = none →
      (pp_process_json default_project create
          (pre ++ ⟨some rtm, some epic_key, some summary, some description, some labels⟩
            :: post)).2 =
        (pp_process_json default_project create pre).2
          ++ (pp_process_json default_project create post).2)
    ∧ (∃ a b, rtm ++ " created (auto-generated)." = a ++ rtm ++ b) := by
  refine ⟨?_, ?_, ⟨"RTM ", " certificate created.", rfl⟩, ?_, ?_, ⟨"", " created (auto-generated).", by simp⟩⟩
  · intro hc hk
    exact run_batch_mid_success _ pre post _ _ _
      (create_step_success create rtm epic_key summary description labels key hc hk)
  · intro hc
    exact run_batch_mid_fail _ pre post _ _
      (create_step_fail create rtm epic_key summary description labels hc)
  · intro hg hc hk
    exact run_batch_mid_success _ pre post _ _ _
      (pp_step_success default_project create rtm epic_key summary description labels key hg hc hk)
  · intro hg hc
    exact run_batch_mid_fail _ pre post _ _
      (pp_step_fail default_project create rtm epic_key summary description labels hg hc)

/-- A complete creation entry used in concrete instances. -/
def goodEntry : CreationEntry :=
  { rtm := some "RTM-1", epic := some "CPG-7", summary := some "s",
    description := some "d", labels := some ["l1"] }

/-- Witness for C4: with a server that answers key `CPG-100`, the complete
entry yields exactly one derived record with status `To Do` and points 0. -/
theorem creation_success_one_derived_witness :
    (process_json okCreate [goodEntry]).2 =
      [{ issue := "CPG-100", status := "To Do",
         comment := "RTM " ++ "RTM-1" ++ " certificate created.",
         labels := ["l1"], points := 0 }] :=
  (creation_success_one_derived okCreate none [] [] "RTM-1" "CPG-7" "s" "d" ["l1"]
    "CPG-100").1 rfl (by decide)

theorem pp_step_guardrail (default_project : Option String)
    (create : CreateRequest → Option String)
    (rtm epic_key summary description : String) (labels : Option (List String))
    (hg : pyStartswith epic_key (effective_project default_project epic_key ++ "-") = false) :
    pp_step default_project create
      ⟨some rtm, some epic_key, some summary, some description, labels⟩ = none := by
  simp [pp_step, hg]

/-- C5: when a target project key `p` is explicitly provided (non-blank
prompt) and an entry's epic key does not start with `p ++ "-"`, the entry
is skipped — no creation request is sent and nothing reaches the derived
file — while the remaining entries are processed unchanged; in particular
this holds for target `"ENG"` and epic `"CPG-7"`. -/
theorem pp_guardrail_skip
    (create : CreateRequest → Option String) (p : String)
    (pre post : List CreationEntry)
    (rtm epic_key summary description : String) (labels : Option (List String))
    (hp : p ≠ "")
    (hg : pyStartswith epic_key (p ++ "-") = false) :
    pp_process_json (some p) create
        (pre ++ ⟨some rtm, some epic_key, some summary, some description, labels⟩ :: post) =
      pp_process_json (some p) create (pre ++ post)
    ∧ pyStartswith "CPG-7" ("ENG" ++ "-") = false := by
  refine ⟨?_, by decide⟩
  have heff : effective_project (some p) epic_key = p := by
    simp [effective_project, hp]
  refine run_batch_skip _ pre post _ ?_
  refine pp_step_guardrail (some p) create rtm epic_key summary description labels ?_
  rw [heff]
  exact hg

/-- Witness for C5: with target project `"ENG"`, the entry for epic
`"CPG-7"` is dropped entirely even though creation would have succeeded. -/
theorem pp_guardrail_skip_witness :
    pp_process_json (some "ENG") okCreate [goodEntry] = pp_process_json (some "ENG") okCreate [] :=
  (pp_guardrail_skip okCreate "ENG" [] [] "RTM-1" "CPG-7" "s" "d" (some ["l1"])
    (by decide) (by decide)).1

theorem splitOnChar_cons_head (c : Char) (l : List Char) :
    ∃ rs, splitOnChar c l = (l.takeWhile (fun x => x != c)) :: rs := by
  induction l with
  | nil => exact ⟨[], rfl⟩
  | cons x xs ih =>
    obtain ⟨rs, hrs⟩ := ih
    by_cases hx : x = c
    · subst hx
      exact ⟨splitOnChar x xs, by simp [splitOnChar, List.takeWhile_cons]⟩
    · exact ⟨rs, by simp [splitOnChar, hrs, List.takeWhile_cons, hx]⟩

theorem infer_eq_takeWhile (epic_key : String) :
    infer_project_from_epic epic_key =
      String.mk (epic_key.data.takeWhile (fun x => x != '-')) := by
  obtain ⟨rs, hrs⟩ := splitOnChar_cons_head '-' epic_key.data
  unfold infer_project_from_epic
  rw [hrs]

theorem takeWhile_all_append (l1 l2 : List Char) (c : Char) (h : c ∉ l1) :
    (l1 ++ c :: l2).takeWhile (fun x => x != c) = l1 := by
  induction l1 with
  | nil => simp [List.takeWhile_cons]
  | cons x xs ih =>
    have hx : x ≠ c := fun hxc => h (hxc ▸ List.mem_cons_self x xs)
    have hxs : c ∉ xs := fun hc => h (List.mem_cons_of_mem x hc)
    simp [List.takeWhile_cons, hx, ih hxs]

/-- C6: with no explicit project key configured (blank prompt), the
project key used for an entry is `infer_project_from_epic` of its epic
key, which is exactly the substring before the first `"-"` (the characters
taken while not `'-'`); for epic key `"CPG-7"` this is `"CPG"`. -/
theorem infer_project_spec (epic_key : String) :
    effective_project none epic_key = infer_project_from_epic epic_key
    ∧ infer_project_from_epic epic_key =
        String.mk (epic_key.data.takeWhile (fun x => x != '-'))
    ∧ (∀ a b : String, '-' ∉ a.data → epic_key = a ++ "-" ++ b →
        infer_project_from_epic epic_key = a)
    ∧ infer_project_from_epic "CPG-7" = "CPG" := by
  refine ⟨rfl, infer_eq_takeWhile epic_key, ?_, by decide⟩
  intro a b ha hab
  subst hab
  rw [infer_eq_takeWhile]
  have hdata : (a ++ "-" ++ b).data = a.data ++ '-' :: b.data := by
    rw [String.data_append, String.data_append, List.append_assoc]
    rfl
  rw [hdata, takeWhile_all_append a.data b.data '-' ha]

/-- Witness for C6: the inferred project for epic `"CPG-7"` is `"CPG"`,
the substring before the first dash. -/
theorem infer_project_spec_witness : infer_project_from_epic "CPG-7" = "CPG" :=
  (infer_project_spec "CPG-7").2.2.1 "CPG" "7" (by decide) rfl

/-- C7 counterexample: a worklog whose `comment` key is present but holds
the empty string submits a payload with no comment at all — the guard
`if comment:` treats `""` as absent — contradicting the claim that a
worklog that "also has a comment" always gets it wrapped into the payload. -/
theorem add_worklog_empty_comment_cex :
    add_worklog_payload (some "1h30m") (some "") =
      { timeSpent := some "1h30m", comment := none }
    ∧ (add_worklog_payload (some "1h30m") (some "")).comment ≠ some (adf_doc "") := by
  refine ⟨by decide, by decide⟩

/-- C7 amended: an update entry's worklog with a `timeSpent` value and no
comment submits a payload containing `timeSpent` and no comment key; when
the worklog also has a non-empty comment, the payload additionally carries
that comment wrapped as a rich-text document with a single paragraph
holding one plain text run (a present-but-empty comment string is treated
as absent by the `if comment:` truthiness guard).  The batch driver feeds
`worklog.get("timeSpent")` and `worklog.get("comment")` of each entry's
worklog object into this payload. -/
theorem add_worklog_payload_spec (ts c : String) :
    add_worklog_payload (some ts) none = { timeSpent := some ts, comment := none }
    ∧ (c ≠ "" → add_worklog_payload (some ts) (some c) =
        { timeSpent := some ts,
          comment := some ⟨"doc", 1, [⟨"paragraph", [⟨"text", c⟩]⟩]⟩ })
    ∧ add_worklog_payload (some ts) (some "") = { timeSpent := some ts, comment := none }
    ∧ (∀ env (e : UpdateEntry) issue w, e.issue = some issue → e.worklog = some w →
        ∃ acts, process_one env e = Except.ok acts
          ∧ JAction.worklog issue (add_worklog_payload w.timeSpent w.comment) ∈ acts) := by
  refine ⟨rfl, ?_, rfl, ?_⟩
  · intro hc
    simp [add_worklog_payload, hc, adf_doc]
  · intro env e issue w hi hw
    obtain ⟨i, st, cm, lb, pt, wl, cat, sev, att⟩ := e
    cases hi
    cases hw
    refine ⟨_, rfl, ?_⟩
    simp [List.mem_append]

/-- Witness for C7: a worklog of `1h30m` with comment `"hi"` produces the
payload with the wrapped rich-text comment. -/
theorem add_worklog_payload_spec_witness :
    add_worklog_payload (some "1h30m") (some "hi") =
      { timeSpent := some "1h30m",
        comment := some ⟨"doc", 1, [⟨"paragraph", [⟨"text", "hi"⟩]⟩]⟩ } :=
  (add_worklog_payload_spec "1h30m" "hi").2.1 (by decide)

/-- True exactly when an `Except` computation returned normally. -/
def exceptOk {ε α : Type} : Except ε α → Bool
  | .ok _ => true
  | .error _ => false

/-- A raw environment whose responses are all well-shaped; nothing exists
on disk. -/
def wellShapedEnv : JiraEnvRaw :=
  { disk := fun _ => false, upload_ok := fun _ _ => true,
    transitionsResp := fun _ => .ok [], fieldsResp := .ok [],
    myselfResp := .ok ⟨some "acct"⟩ }

/-- A raw environment for a bad-token run: every body parses but the
`/myself` error body carries no `accountId`. -/
def badTokenEnv : JiraEnvRaw :=
  { disk := fun _ => false, upload_ok := fun _ _ => true,
    transitionsResp := fun _ => .ok [], fieldsResp := .ok [],
    myselfResp := .ok ⟨none⟩ }

/-- A raw environment whose transitions response holds an object without
the `name` key. -/
def noNameEnv : JiraEnvRaw :=
  { disk := fun _ => false, upload_ok := fun _ _ => true,
    transitionsResp := fun _ => .ok [⟨some "5", none⟩], fieldsResp := .ok [],
    myselfResp := .ok ⟨some "acct"⟩ }

/-- A raw environment whose field catalog holds a story-points field
without the `id` key. -/
def noFieldIdEnv : JiraEnvRaw :=
  { disk := fun _ => false, upload_ok := fun _ _ => true,
    transitionsResp := fun _ => .ok [], fieldsResp := .ok [⟨none, some "Story Points"⟩],
    myselfResp := .ok ⟨some "acct"⟩ }

/-- A raw environment whose transitions body does not parse as JSON. -/
def parseFailEnv : JiraEnvRaw :=
  { disk := fun _ => false, upload_ok := fun _ _ => true,
    transitionsResp := fun _ => .error .jsonDecodeError, fieldsResp := .ok [],
    myselfResp := .ok ⟨some "acct"⟩ }

/-- An update entry carrying only the mandatory `issue` key. -/
def minimalUpdateEntry : UpdateEntry := { issue := some "CPG-1" }

/-- An update entry with the `issue` key and a desired status. -/
def statusUpdateEntry : UpdateEntry := { issue := some "CPG-1", status := some "Done" }

/-- An update entry with the `issue` key and a points value. -/
def pointsUpdateEntry : UpdateEntry := { issue := some "CPG-1", points := some 3 }

theorem exceptOk_eq_true {ε α : Type} (x : Except ε α) :
    exceptOk x = true ↔ ∃ a, x = Except.ok a := by
  cases x <;> simp [exceptOk]

theorem process_one_raw_err (env : JiraEnvRaw) (e : UpdateEntry) (h : e.issue = none) :
    process_one_raw env e = Except.error (PyErr.keyError "issue") := by
  obtain ⟨i, st, cm, lb, pt, wl, cat, sev, att⟩ := e
  subst h
  rfl

theorem find_transition_id_raw_ok (ts : List TransitionRaw) (status : String)
    (h : ∀ t ∈ ts, t.name.isSome = true ∧ t.id.isSome = true) :
    ∃ o, find_transition_id_raw ts status = Except.ok o := by
  induction ts with
  | nil => exact ⟨none, rfl⟩
  | cons t ts ih =>
    obtain ⟨hn, hi⟩ := h t (List.mem_cons_self t ts)
    obtain ⟨nm, hnm⟩ := Option.isSome_iff_exists.mp hn
    obtain ⟨tid, htid⟩ := Option.isSome_iff_exists.mp hi
    by_cases hc : pyLower nm = pyLower status
    · exact ⟨some tid, by simp [find_transition_id_raw, hnm, htid, hc]⟩
    · obtain ⟨o, ho⟩ := ih fun x hx => h x (List.mem_cons_of_mem t hx)
      exact ⟨o, by simp [find_transition_id_raw, hnm, hc, ho]⟩

theorem find_sp_field_raw_ok (fs : List FieldRaw)
    (h : ∀ f ∈ fs, f.id.isSome = true) :
    ∃ o, find_sp_field_raw fs = Except.ok o := by
  induction fs with
  | nil => exact ⟨none, rfl⟩
  | cons f fs ih =>
    cases hc : containsSub ("story point").data (pyLower (f.name.getD "")).data with
    | true =>
      obtain ⟨fid, hfid⟩ := Option.isSome_iff_exists.mp (h f (List.mem_cons_self f fs))
      exact ⟨some fid, by simp [find_sp_field_raw, hc, hfid]⟩
    | false =>
      obtain ⟨o, ho⟩ := ih fun x hx => h x (List.mem_cons_of_mem f hx)
      exact ⟨o, by simp [find_sp_field_raw, hc, ho]⟩

theorem status_step_raw_ok (env : JiraEnvRaw) (issue : String) (st : Option String)
    (h : ∃ ts, env.transitionsResp issue = Except.ok ts
      ∧ ∀ t ∈ ts, t.name.isSome = true ∧ t.id.isSome = true) :
    ∃ a, status_step_raw env issue st = Except.ok a := by
  cases st with
  | none => exact ⟨[], rfl⟩
  | some s =>
    obtain ⟨ts, hts, hok⟩ := h
    obtain ⟨o, ho⟩ := find_transition_id_raw_ok ts s hok
    cases o with
    | none => exact ⟨[], by simp [status_step_raw, update_status_raw, hts, ho]⟩
    | some tid =>
      by_cases htid : tid = ""
      · exact ⟨[], by simp [status_step_raw, update_status_raw, hts, ho, htid]⟩
      · exact ⟨[.transition issue tid],
          by simp [status_step_raw, update_status_raw, hts, ho, htid]⟩

theorem points_step_raw_ok (env : JiraEnvRaw) (issue : String) (pt : Option Int)
    (h : ∃ fs, env.fieldsResp = Except.ok fs ∧ ∀ f ∈ fs, f.id.isSome = true) :
    ∃ a, points_step_raw env issue pt = Except.ok a := by
  cases pt with
  | none => exact ⟨[], rfl⟩
  | some p =>
    obtain ⟨fs, hfs, hok⟩ := h
    obtain ⟨o, ho⟩ := find_sp_field_raw_ok fs hok
    cases o with
    | none => exact ⟨[], by simp [points_step_raw, update_story_points_raw, hfs, ho]⟩
    | some fid =>
      by_cases hfid : fid = ""
      · exact ⟨[], by simp [points_step_raw, update_story_points_raw, hfs, ho, hfid]⟩
      · exact ⟨[.setPoints issue fid p],
          by simp [points_step_raw, update_story_points_raw, hfs, ho, hfid]⟩

theorem process_one_raw_ok (env : JiraEnvRaw) (e : UpdateEntry)
    (henv : rawRespOk env) (h : e.issue.isSome = true) :
    exceptOk (process_one_raw env e) = true := by
  obtain ⟨⟨acct, hacct⟩, htrans, hfields⟩ := henv
  obtain ⟨i, st, cm, lb, pt, wl, cat, sev, att⟩ := e
  cases i with
  | none => simp at h
  | some issue =>
    obtain ⟨a1, ha1⟩ := status_step_raw_ok env issue st (htrans issue)
    obtain ⟨a5, ha5⟩ := points_step_raw_ok env issue pt hfields
    simp only [process_one_raw, ha1, assign_to_me_raw, hacct, ha5, exceptOk]

theorem process_rtm_raw_error_propagates (env : JiraEnvRaw) (pre post : List UpdateEntry)
    (bad : UpdateEntry) (hpre : ∀ e ∈ pre, exceptOk (process_one_raw env e) = true)
    (hbad : bad.issue = none) :
    process_rtm_raw env (pre ++ bad :: post) = Except.error (PyErr.keyError "issue") := by
  induction pre with
  | nil =>
    show process_rtm_raw env (bad :: post) = _
    simp [process_rtm_raw, process_one_raw_err env bad hbad]
  | cons p ps ih =>
    obtain ⟨acts, hp⟩ := (exceptOk_eq_true (process_one_raw env p)).mp
      (hpre p (List.mem_cons_self p ps))
    have ih' := ih fun x hx => hpre x (List.mem_cons_of_mem p hx)
    show process_rtm_raw env (p :: (ps ++ bad :: post)) = _
    simp [process_rtm_raw, hp, ih']

/-- C8 counterexample: even against a server whose every response is
well-shaped, an update entry that merely lacks the `issue` key makes the
batch driver raise an uncaught `KeyError` (from `entry["issue"]`,
`update_jira.py` line 221, which sits in no `try` block), contradicting
the claim that every failure is converted to a logged message plus a
sentinel return. -/
theorem process_rtm_raw_keyerror_cex :
    process_rtm_raw wellShapedEnv [{ status := some "Done" }] =
      Except.error (PyErr.keyError "issue") := rfl

/-- C8 amended: exceptions do propagate in the update flow — there is no
handler anywhere in `update_jira.py`.  An entry missing the `issue` key
raises an uncaught `KeyError` that aborts the whole remaining batch
(first conjunct); and even with every `issue` key present, a `/myself`
body without `accountId` (as on any bad-token run), a transition object
without `name`, a story-points field without `id`, or an unparseable
transitions body each raise uncaught and abort the run (last four
conjuncts).  Only non-success HTTP statuses on the writes, resolution
misses and files missing on disk are converted to logged messages plus
sentinel returns: over well-shaped server responses the run completes
normally exactly when every entry carries `issue`, whatever the statuses
and the filesystem say (second conjunct).  The creation flow catches its
per-entry `KeyError` and, as embedded, raises nothing. -/
theorem process_rtm_raw_exception_spec (env : JiraEnvRaw) (entries : List UpdateEntry) :
    (∀ pre bad post, entries = pre ++ bad :: post →
        (∀ e ∈ pre, exceptOk (process_one_raw env e) = true) → bad.issue = none →
        process_rtm_raw env entries = Except.error (PyErr.keyError "issue"))
    ∧ (rawRespOk env →
        (exceptOk (process_rtm_raw env entries) = true ↔
          ∀ e ∈ entries, e.issue.isSome = true))
    ∧ process_rtm_raw badTokenEnv [minimalUpdateEntry] =
        Except.error (PyErr.keyError "accountId")
    ∧ process_rtm_raw noNameEnv [statusUpdateEntry] = Except.error (PyErr.keyError "name")
    ∧ process_rtm_raw noFieldIdEnv [pointsUpdateEntry] = Except.error (PyErr.keyError "id")
    ∧ process_rtm_raw parseFailEnv [statusUpdateEntry] = Except.error PyErr.jsonDecodeError := by
  refine ⟨?_, ?_, rfl, rfl, rfl, rfl⟩
  · intro pre bad post hsplit hpre hbad
    subst hsplit
    exact process_rtm_raw_error_propagates env pre post bad hpre hbad
  · intro henv
    induction entries with
    | nil => simp [process_rtm_raw, exceptOk]
    | cons e rest ih =>
      cases he : e.issue with
      | none =>
        have h1 := process_one_raw_err env e he
        have hrtm : process_rtm_raw env (e :: rest) = Except.error (PyErr.keyError "issue") := by
          simp [process_rtm_raw, h1]
        rw [hrtm]
        constructor
        · intro h
          exact absurd h (by simp [exceptOk])
        · intro h
          have h2 := h e (List.mem_cons_self e rest)
          rw [he] at h2
          simp at h2
      | some issue =>
        obtain ⟨acts, h1⟩ := (exceptOk_eq_true (process_one_raw env e)).mp
          (process_one_raw_ok env e henv (by rw [he]; rfl))
        cases hr : process_rtm_raw env rest with
        | error err =>
          have hrtm : process_rtm_raw env (e :: rest) = Except.error err := by
            simp [process_rtm_raw, h1, hr]
          rw [hrtm]
          constructor
          · intro h
            exact absurd h (by simp [exceptOk])
          · intro h
            have hall : ∀ x ∈ rest, x.issue.isSome = true :=
              fun x hx => h x (List.mem_cons_of_mem e hx)
            have hok := ih.mpr hall
            rw [hr] at hok
            simp [exceptOk] at hok
        | ok ts =>
          have hrtm : process_rtm_raw env (e :: rest) = Except.ok (acts :: ts) := by
            simp [process_rtm_raw, h1, hr]
          rw [hrtm]
          constructor
          · intro _ x hx
            rcases List.mem_cons.mp hx with h | h
            · rw [h, he]
              rfl
            · exact (ih.mp (by rw [hr]; rfl)) x h
          · intro _
            rfl

/-- Witness for C8: over well-shaped responses (and a filesystem with
nothing on it), a batch whose single entry has the `issue` key runs to
completion. -/
theorem process_rtm_raw_exception_spec_witness :
    exceptOk (process_rtm_raw wellShapedEnv [minimalUpdateEntry]) = true :=
  ((process_rtm_raw_exception_spec wellShapedEnv [minimalUpdateEntry]).2.1
    ⟨⟨"acct", rfl⟩, fun _ => ⟨[], rfl, by simp⟩, ⟨[], rfl, by simp⟩⟩).mpr (by decide)

theorem find_sp_field_all_ne (fields : List FieldDescr)
    (h : ∀ f ∈ fields,
      containsSub ("story point").data (pyLower (f.name.getD "")).data = false) :
    find_sp_field fields = none := by
  induction fields with
  | nil => rfl
  | cons f fs ih =>
    have hf := h f (List.mem_cons_self f fs)
    simp only [find_sp_field, hf, Bool.false_eq_true, if_false]
    exact ih fun g hg => h g (List.mem_cons_of_mem f hg)

theorem find_sp_field_first (l1 : List FieldDescr) (f : FieldDescr) (l2 : List FieldDescr)
    (h1 : ∀ g ∈ l1,
      containsSub ("story point").data (pyLower (g.name.getD "")).data = false)
    (hf : containsSub ("story point").data (pyLower (f.name.getD "")).data = true) :
    find_sp_field (l1 ++ f :: l2) = some f.id := by
  induction l1 with
  | nil => simp only [List.nil_append, find_sp_field, hf, if_true]
  | cons g gs ih =>
    have hg := h1 g (List.mem_cons_self g gs)
    simp only [List.cons_append, find_sp_field, hg, Bool.false_eq_true, if_false]
    exact ih fun x hx => h1 x (List.mem_cons_of_mem g hx)

/-- C9 counterexample: for the field catalog `[{id: "", name: "Story
Points"}]`, a field name matches the `"story point"` substring scan and
its id `""` is selected, yet `update_story_points` issues no update (the
guard `if not sp_field:` also fires on an empty-string id), contradicting
the claim that a match always yields exactly one field update. -/
theorem update_story_points_empty_id_cex :
    containsSub ("story point").data (pyLower "Story Points").data = true
    ∧ find_sp_field [⟨"", some "Story Points"⟩] = some ""
    ∧ update_story_points [⟨"", some "Story Points"⟩] 5 = none := by
  refine ⟨by decide, by decide, by decide⟩

/-- C9 amended: the story-points update fetches the field catalog and
linearly scans for the first field whose display name (lowered, absent
read as `""`) contains the substring `"story point"`; if no field matches
it logs and returns with no update, and if a field matches it issues
exactly one field update setting that field to the given points value —
provided the matched id is non-empty; a matched field whose id is the
empty string is treated as not found by the `if not sp_field:` guard. -/
theorem update_story_points_spec (fields : List FieldDescr) (points : Int) :
    ((∀ f ∈ fields,
        containsSub ("story point").data (pyLower (f.name.getD "")).data = false) →
      update_story_points fields points = none)
    ∧ (∀ l1 f l2, fields = l1 ++ f :: l2 →
        (∀ g ∈ l1,
          containsSub ("story point").data (pyLower (g.name.getD "")).data = false) →
        containsSub ("story point").data (pyLower (f.name.getD "")).data = true →
        f.id ≠ "" →
        update_story_points fields points = some (f.id, points))
    ∧ (∀ l1 f l2, fields = l1 ++ f :: l2 →
        (∀ g ∈ l1,
          containsSub ("story point").data (pyLower (g.name.getD "")).data = false) →
        containsSub ("story point").data (pyLower (f.name.getD "")).data = true →
        f.id = "" →
        update_story_points fields points = none)
    ∧ find_sp_field [⟨"f1", some "Sprint"⟩, ⟨"f2", some "Story Points"⟩] = some "f2" := by
  refine ⟨?_, ?_, ?_, by decide⟩
  · intro h
    unfold update_story_points
    rw [find_sp_field_all_ne fields h]
  · intro l1 f l2 hsplit h1 hf hid
    unfold update_story_points
    rw [hsplit, find_sp_field_first l1 f l2 h1 hf]
    simp only [hid, if_false]
  · intro l1 f l2 hsplit h1 hf hid
    unfold update_story_points
    rw [hsplit, find_sp_field_first l1 f l2 h1 hf]
    simp only [hid, if_true]

/-- Witness for C9: with catalog `[Sprint, Story Points]` the second field
is selected and the single update sets it to 3. -/
theorem update_story_points_spec_witness :
    update_story_points [⟨"f1", some "Sprint"⟩, ⟨"f2", some "Story Points"⟩] 3 =
      some ("f2", 3) :=
  (update_story_points_spec [⟨"f1", some "Sprint"⟩, ⟨"f2", some "Story Points"⟩] 3).2.1
    [⟨"f1", some "Sprint"⟩] ⟨"f2", some "Story Points"⟩ [] rfl (by decide) (by decide)
    (by decide)

theorem takeWhile_dash_front (l : List Char) (h : '-' ∈ l) :
    (l.takeWhile (fun x => x != '-') ++ ['-']) <+: l := by
  induction l with
  | nil => cases h
  | cons x xs ih =>
    by_cases hx : x = '-'
    · subst hx
      refine ⟨xs, ?_⟩
      simp [List.takeWhile_cons]
    · have hmem : '-' ∈ xs := by
        rcases List.mem_cons.mp h with h' | h'
        · exact absurd h'.symm hx
        · exact h'
      obtain ⟨t, ht⟩ := ih hmem
      have hcond : (x != '-') = true := by simp [hx]
      refine ⟨t, ?_⟩
      rw [List.takeWhile_cons, hcond]
      show x :: ((xs.takeWhile (fun x => x != '-') ++ ['-']) ++ t) = x :: xs
      rw [ht]

theorem pyStartswith_infer_mem (epic_key : String) (h : '-' ∈ epic_key.data) :
    pyStartswith epic_key (infer_project_from_epic epic_key ++ "-") = true := by
  have hdata : (infer_project_from_epic epic_key ++ "-").data
      = epic_key.data.takeWhile (fun x => x != '-') ++ ['-'] := by
    rw [infer_eq_takeWhile, String.data_append]
  unfold pyStartswith
  rw [hdata]
  exact List.isPrefixOf_iff_prefix.mpr (takeWhile_dash_front epic_key.data h)

theorem pyStartswith_infer_not_mem (epic_key : String) (h : '-' ∉ epic_key.data) :
    pyStartswith epic_key (infer_project_from_epic epic_key ++ "-") = false := by
  have htw : epic_key.data.takeWhile (fun x => x != '-') = epic_key.data :=
    List.takeWhile_eq_self_iff.mpr fun x hx => by
      simp only [bne_iff_ne, ne_eq]
      exact fun hxeq => h (hxeq ▸ hx)
  have hdata : (infer_project_from_epic epic_key ++ "-").data
      = epic_key.data.takeWhile (fun x => x != '-') ++ ['-'] := by
    rw [infer_eq_takeWhile, String.data_append]
  unfold pyStartswith
  rw [hdata, htw]
  cases hb : (epic_key.data ++ ['-']).isPrefixOf epic_key.data with
  | false => rfl
  | true =>
    have hlen := (List.isPrefixOf_iff_prefix.mp hb).length_le
    simp only [List.length_append, List.length_cons, List.length_nil] at hlen
    omega

/-- C10: when the project key is inferred from the epic key itself (blank
prompt), the guardrail `epic_key.startswith(project_key + "-")` is
satisfied exactly when the epic key contains a `"-"`: such entries are
never skipped by the guardrail (a creation request is always sent),
while an epic key without any `"-"` is always skipped. -/
theorem guardrail_inference_spec (epic_key : String) :
    ('-' ∈ epic_key.data →
      pyStartswith epic_key (infer_project_from_epic epic_key ++ "-") = true)
    ∧ ('-' ∉ epic_key.data →
      pyStartswith epic_key (infer_project_from_epic epic_key ++ "-") = false)
    ∧ (∀ create rtm summary description labels, '-' ∈ epic_key.data →
        (pp_step none create
          ⟨some rtm, some epic_key, some summary, some description, labels⟩).isSome = true)
    ∧ (∀ create rtm summary description labels, '-' ∉ epic_key.data →
        pp_step none create
          ⟨some rtm, some epic_key, some summary, some description, labels⟩ = none) := by
  refine ⟨pyStartswith_infer_mem epic_key, pyStartswith_infer_not_mem epic_key, ?_, ?_⟩
  · intro create rtm summary description labels hmem
    have hg := pyStartswith_infer_mem epic_key hmem
    simp [pp_step, effective_project, hg]
  · intro create rtm summary description labels hmem
    have hg := pyStartswith_infer_not_mem epic_key hmem
    simp [pp_step, effective_project, hg]

/-- Witness for C10: the entry for epic `"CPG-7"` passes the guardrail
under inference and a creation request is produced for it. -/
theorem guardrail_inference_spec_witness :
    (pp_step none okCreate goodEntry).isSome = true :=
  (guardrail_inference_spec "CPG-7").2.2.1 okCreate "RTM-1" "s" "d" (some ["l1"])
    (by decide)
